import Mathlib

/-!
Verification of the products-api service core against its specification.

The development shallowly embeds the Python sources of the repository:

* `src/src/exceptions/exceptions.py` — error taxonomy and the central
  exception handler;
* `src/src/core/security.py`        — password hashing, token creation and
  verification, principal resolution (`get_current_user`);
* `src/src/core/middleware.py`      — request-size admission control,
  middleware registration order, rate limiter configuration;
* `src/src/logger.py`               — redaction of sensitive fields;
* `src/src/routers/auth.py`         — registration and login;
* `src/src/main.py`                 — application assembly.

External libraries (python-jose, bcrypt, starlette, slowapi) are modelled
from their documented behaviour where the repository calls into them; each
such model carries a doc comment naming the library and the behaviour
modelled.
-/

namespace ProductsApi

/-- Decidable equality for `Except`, used to evaluate outcome comparisons
on concrete inputs. -/
instance {ε α : Type} [DecidableEq ε] [DecidableEq α] : DecidableEq (Except ε α) := fun x y =>
  match x, y with
  | .error a, .error b =>
      if h : a = b then .isTrue (by rw [h]) else .isFalse (by simp [h])
  | .ok a, .ok b =>
      if h : a = b then .isTrue (by rw [h]) else .isFalse (by simp [h])
  | .error _, .ok _ => .isFalse (by simp)
  | .ok _, .error _ => .isFalse (by simp)

/-! ## Error taxonomy — src/src/exceptions/exceptions.py -/

/-- Modelled from the spec: the machine-readable error code enumeration.
The module `exceptions/enums.py` (imported as `from exceptions.enums import
ErrorCode`) is not present under src/; the constructors are the members the
code under src/ references, the string values follow the member names, per
the spec requirement of a stable machine-readable `code` per error kind. -/
inductive ErrorCode where
  | internal_error
  | bad_request
  | validation_error
  | unauthorized
  | forbidden
  | not_found
  | conflict
  | rate_limited
  | user_not_found
  | user_exists
  | invalid_credentials
  | inactive_user
  deriving DecidableEq, Repr

/-- Modelled from the spec: the `.value` string of each `ErrorCode` member
(the concrete spellings are not under src/; only their stability and
distinctness matter to the claims). -/
def ErrorCode.value : ErrorCode → String
  | .internal_error => "INTERNAL_ERROR"
  | .bad_request => "BAD_REQUEST"
  | .validation_error => "VALIDATION_ERROR"
  | .unauthorized => "UNAUTHORIZED"
  | .forbidden => "FORBIDDEN"
  | .not_found => "NOT_FOUND"
  | .conflict => "CONFLICT"
  | .rate_limited => "RATE_LIMITED"
  | .user_not_found => "USER_NOT_FOUND"
  | .user_exists => "USER_EXISTS"
  | .invalid_credentials => "INVALID_CREDENTIALS"
  | .inactive_user => "INACTIVE_USER"

/-- The `AuthException` class hierarchy of src/src/exceptions/exceptions.py,
one constructor per class.  Each class fixes a status code, an `ErrorCode`
and a default detail string as class attributes. -/
inductive ExcClass where
  | authException
  | badRequest
  | validation
  | unauthorized
  | forbidden
  | notFound
  | conflict
  | rateLimit
  | userNotFound
  | usernameExists
  | emailExists
  | invalidCredentials
  | inactiveUser
  deriving DecidableEq, Repr

/-- Class attribute `status_code` of each exception class
(exceptions/exceptions.py lines 18-106; subclasses inherit). -/
def ExcClass.status_code : ExcClass → Nat
  | .authException => 500
  | .badRequest => 400
  | .validation => 422
  | .unauthorized => 401
  | .forbidden => 403
  | .notFound => 404
  | .conflict => 409
  | .rateLimit => 429
  | .userNotFound => 404
  | .usernameExists => 409
  | .emailExists => 409
  | .invalidCredentials => 401
  | .inactiveUser => 403

/-- Class attribute `code` of each exception class. -/
def ExcClass.code : ExcClass → ErrorCode
  | .authException => .internal_error
  | .badRequest => .bad_request
  | .validation => .validation_error
  | .unauthorized => .unauthorized
  | .forbidden => .forbidden
  | .notFound => .not_found
  | .conflict => .conflict
  | .rateLimit => .rate_limited
  | .userNotFound => .user_not_found
  | .usernameExists => .user_exists
  | .emailExists => .user_exists
  | .invalidCredentials => .invalid_credentials
  | .inactiveUser => .inactive_user

/-- Class attribute `detail` (the default detail string) of each class. -/
def ExcClass.default_detail : ExcClass → String
  | .authException => "An unexpected error occurred"
  | .badRequest => "Bad request"
  | .validation => "Validation error"
  | .unauthorized => "Authentication required"
  | .forbidden => "Permission denied"
  | .notFound => "Resource not found"
  | .conflict => "Resource conflict"
  | .rateLimit => "Too many requests"
  | .userNotFound => "User not found"
  | .usernameExists => "User with this email already exists"
  | .emailExists => "User with this email already exists"
  | .invalidCredentials => "Invalid email or password"
  | .inactiveUser => "User account is inactive"

/-- Class attribute `headers` (exceptions/exceptions.py line 56): only
`UnauthorizedException` (and, by inheritance, `InvalidCredentialsException`)
declares one.  NOTE: `AuthException.__init__` never reads this class
attribute — its `headers` parameter (default `None`) shadows it — so these
dicts are dead data; `AuthException.mk_init` below is faithful to that. -/
def ExcClass.class_headers : ExcClass → List (String × String)
  | .unauthorized => [("WWW-Authenticate", "Bearer")]
  | .invalidCredentials => [("WWW-Authenticate", "Bearer")]
  | _ => []

/-- A constructed `AuthException` instance: its class, the instance `detail`
and the instance `headers` dict (as an association list in insertion
order). -/
structure AuthException where
  cls : ExcClass
  detail : String
  headers : List (String × String)
  deriving DecidableEq, Repr

/-- `AuthException.__init__` (exceptions/exceptions.py lines 23-37): the
detail defaults to the class attribute, the code to the class attribute, and
the headers dict is exactly `X-Error-Code` followed by the caller-supplied
entries.  The class-level `headers` attribute is not consulted. -/
def AuthException.mk_init (cls : ExcClass) (detail : Option String)
    (code : Option ErrorCode) (headers : Option (List (String × String))) :
    AuthException :=
  { cls := cls
    detail := detail.getD cls.default_detail
    headers := ("X-Error-Code", (code.getD cls.code).value) :: headers.getD [] }

/-- Python dict lookup on the association-list model of a headers dict
(first binding wins; no call site inserts a duplicate `X-Error-Code`). -/
def lookup_header (hs : List (String × String)) (k : String) : Option String :=
  (hs.find? (fun p => p.1 == k)).map Prod.snd

/-! ## python-jose model and `get_current_user` — src/src/core/security.py -/

/-- Abstract view of a candidate bearer-token string as python-jose's
`jwt.decode` observes it, modelled from the documented behaviour of the
`jose` library: whether the string parses as a three-part compact JWS and
the signature verifies under the server secret and algorithm; whether an
`exp` claim is present and (if present) lies in the past at verification
time; and the value of the `sub` claim (`none` when the claim is absent or
null — the code only ever reads it through `payload.get("sub")`).
Tokens whose `sub` is present but not a string are outside the model. -/
structure TokenView where
  well_formed : Bool
  signature_valid : Bool
  has_exp : Bool
  exp_in_past : Bool
  sub : Option String
  deriving DecidableEq, Repr

/-- The exception classes python-jose raises from `jwt.decode`; both are
(subclasses of) `JWTError`, so both are caught by `except JWTError`. -/
inductive JoseError where
  | jwt_error
  | expired_signature
  deriving DecidableEq, Repr

/-- Model of python-jose `jwt.decode(token, key, algorithms,
options={"require": ["exp", "sub"]})` as called at
src/src/core/security.py lines 62-67.  python-jose recognises only
`require_exp`-style boolean option keys (it collects required claims from
option keys starting with the string `require_` followed by the claim
name); the PyJWT-style `"require": [...]` list the code passes is stored by
`defaults.update(options)` and then never read, so NO claim is required:
a valid-signature token without `exp` or without `sub` decodes
successfully.  Signature or structure failures raise `JWTError`; a present
`exp` in the past raises `ExpiredSignatureError`.  The decoded result is
the value of `payload.get("sub")`. -/
def jose_decode (t : TokenView) : Except JoseError (Option String) :=
  if !t.well_formed || !t.signature_valid then .error .jwt_error
  else if t.has_exp && t.exp_in_past then .error .expired_signature
  else .ok t.sub

/-- A row of the `users` table (src/src/models/__init__.py lines 13-23);
`username` and `email` are unique columns. -/
structure UserRow where
  id : Nat
  username : String
  email : String
  hashed_password_salt : Nat
  hashed_password_digest : String
  is_active : Bool
  deriving DecidableEq, Repr

/-- `db.scalars(select(User).where(User.username == username)).first()`:
first row of the table whose username matches. -/
def find_by_username (db : List UserRow) (username : String) : Option UserRow :=
  db.find? (fun u => u.username == username)

/-- `get_current_user` (src/src/core/security.py lines 53-81).  The `token`
argument is `none` when no bearer credential is present (the OAuth2 scheme
is constructed with `auto_error=False`).  The `NotFoundException` raised at
line 70 for a null `sub` is raised inside the `try` block but is not a
`JWTError`, so the `except JWTError` clause does not catch it. -/
def get_current_user (token : Option TokenView) (db : List UserRow) :
    Except AuthException UserRow :=
  match token with
  | none => .error (AuthException.mk_init .notFound (some "Missing token") none none)
  | some t =>
    match jose_decode t with
    | .error _ =>
        .error (AuthException.mk_init .validation (some "Invalid or expired token") none none)
    | .ok none =>
        .error (AuthException.mk_init .notFound
          (some "Invalid token: missing \x27sub\x27 claim") none none)
    | .ok (some username) =>
        match find_by_username db username with
        | none => .error (AuthException.mk_init .notFound (some "User not found") none none)
        | some u =>
            if !u.is_active then
              .error (AuthException.mk_init .inactiveUser (some "Inactive user") none none)
            else .ok u

/-! ## Request-size admission control — src/src/core/middleware.py lines 17-56 -/

/-- A request as `RequestSizeLimiter.dispatch` observes it: the HTTP method,
the declared `Content-Length` header (if any), and the body as the sequence
of chunks `request.stream()` yields (each chunk a list of bytes). -/
structure HttpRequest where
  method : String
  content_length : Option Nat
  chunks : List (List Nat)
  deriving DecidableEq, Repr

/-- Outcome of `RequestSizeLimiter.dispatch`: the downstream application
(`call_next`, hence the route handler) is invoked without the body being
read, a 413 `HTTPException` is raised after reading `chunks_read` chunks
(before `call_next` is ever called), or the fully-read body is re-injected
and `call_next` is invoked. -/
inductive DispatchOutcome where
  | forwarded_unread
  | rejected_413 (chunks_read : Nat)
  | forwarded (body : List Nat)
  deriving DecidableEq, Repr

/-- Whether the outcome invokes the downstream handler. -/
def DispatchOutcome.handler_invoked : DispatchOutcome → Bool
  | .rejected_413 _ => false
  | _ => true

/-- The `async for chunk in request.stream()` loop of
`RequestSizeLimiter.dispatch` (middleware.py lines 42-51): accumulate each
chunk and raise 413 as soon as the accumulated length exceeds `max_size`. -/
def read_stream (max_size : Nat) (acc : List Nat) (seen : Nat) :
    List (List Nat) → DispatchOutcome
  | [] => .forwarded acc
  | c :: rest =>
      let acc2 := acc ++ c
      if acc2.length > max_size then .rejected_413 (seen + 1)
      else read_stream max_size acc2 (seen + 1) rest

/-- `RequestSizeLimiter.dispatch` (middleware.py lines 27-56): non-POST/PUT/
PATCH requests pass through untouched; a declared `Content-Length` above
`max_size` is rejected with 413 before any body read; otherwise the body is
streamed chunk by chunk and rejected the moment the accumulated length
crosses `max_size`, else re-injected and forwarded. -/
def RequestSizeLimiter_dispatch (max_size : Nat) (req : HttpRequest) :
    DispatchOutcome :=
  if !(["POST", "PUT", "PATCH"].contains req.method) then .forwarded_unread
  else
    match req.content_length with
    | some n =>
        if n > max_size then .rejected_413 0
        else read_stream max_size [] 0 req.chunks
    | none => read_stream max_size [] 0 req.chunks

/-- Total byte length of a chunk sequence. -/
def chunks_len (l : List (List Nat)) : Nat := (l.map List.length).sum

/-! ## Middleware registration order — src/src/core/middleware.py and src/src/main.py -/

/-- The middleware classes the application registers. -/
inductive Mw where
  | requestSizeLimiter
  | securityHeaders
  | loggingMw
  | requestID
  | slowAPI
  | cors
  deriving DecidableEq, Repr

/-- Model of starlette `app.add_middleware(cls)`: the new middleware is
inserted at the front of `user_middleware` (`self.user_middleware.insert(0,
…)`), and `build_middleware_stack` wraps the list so that its FIRST element
is the outermost layer.  The list therefore reads in request-phase
execution order, outermost (first to run) first. -/
def add_middleware (stack : List Mw) (m : Mw) : List Mw := m :: stack

/-- `add_middlewares` (middleware.py lines 129-150): registers, in source
order, RequestSizeLimiter, SecurityHeadersMiddleware, LoggingMiddleware,
RequestIDMiddleware, SlowAPIMiddleware, CORSMiddleware (the exception
handlers registered in between do not enter the middleware stack). -/
def add_middlewares (stack : List Mw) : List Mw :=
  add_middleware (add_middleware (add_middleware (add_middleware
    (add_middleware (add_middleware stack .requestSizeLimiter)
      .securityHeaders) .loggingMw) .requestID) .slowAPI) .cors

/-- The stack main.py builds: `app.add_middleware(LoggingMiddleware)` at
line 30, then `add_middlewares(app)` at line 33 and AGAIN at line 36. -/
def main_middleware_stack : List Mw :=
  add_middlewares (add_middlewares (add_middleware [] .loggingMw))

/-- Request-phase execution order of the registered middleware stages,
outermost (first to run) first. -/
def execution_order : List Mw := main_middleware_stack

/-- The fixed stage order of spec §4.5: body-size admission, security
headers, structured logging, request-id propagation, rate limiting,
cross-origin policy. -/
def spec_section_4_5_order : List Mw :=
  [.requestSizeLimiter, .securityHeaders, .loggingMw, .requestID, .slowAPI, .cors]

/-! ## Rate limiter configuration — src/src/core/middleware.py line 126 -/

/-- `limiter = Limiter(key_func=get_remote_address)` (middleware.py line
126): constructed with no `default_limits`, so its default-limit list is
empty. -/
def limiter_default_limits : List Nat := []

/-- The per-route rate limit declared by a `@limiter.limit(...)` decorator.
No route under src/ carries such a decorator, so every route's declared
limit is `none`. -/
def route_limit (_route : String) : Option Nat := none

/-- The routes the application registers (main.py plus the three routers
under `settings.api_prefix = "/api/v1"`). -/
def app_routes : List String :=
  ["/", "/health", "/liveness",
   "/api/v1/auth/register", "/api/v1/auth/token",
   "/api/v1/users/me",
   "/api/v1/items", "/api/v1/items/\x7bitem_id\x7d"]

/-- The limits slowapi applies to a route: its decorated per-route limits
plus the limiter's default limits. -/
def applicable_limits (route : String) : List Nat :=
  (route_limit route).toList ++ limiter_default_limits

/-- Model of slowapi's `SlowAPIMiddleware`: a request is rejected with 429
iff some applicable limit for its route is exceeded by the client's request
count inside the current window. -/
def rate_limit_rejects (route : String) (count_in_window : Nat) : Bool :=
  (applicable_limits route).any (fun q => count_in_window > q)

/-! ## Redaction of sensitive fields — src/src/logger.py lines 34-84 -/

/-- `SENSITIVE_KEYS` (logger.py lines 34-49): exactly matched (lower-cased)
key names. -/
def SENSITIVE_KEYS : List String :=
  ["password", "new_password", "current_password", "access_token",
   "refresh_token", "token", "jwt", "authorization", "api_key", "secret",
   "private_key", "credit_card", "ssn", "cvv"]

/-- `SENSITIVE_KEYWORDS` (logger.py lines 52-60): substrings that mark a
(lower-cased) key as sensitive. -/
def SENSITIVE_KEYWORDS : List String :=
  ["pass", "token", "secret", "key", "auth", "jwt", "bearer"]

/-- Python `str.lower()` on the ASCII key names the heuristic deals with. -/
def py_lower (s : String) : String := String.mk (s.data.map Char.toLower)

/-- Substring containment on character lists: `needle` occurs contiguously
somewhere in `haystack`. -/
def char_list_contains (needle : List Char) : List Char → Bool
  | [] => needle.isEmpty
  | c :: rest => needle.isPrefixOf (c :: rest) || char_list_contains needle rest

/-- Python `needle in haystack` on strings: substring containment. -/
def py_str_contains (needle haystack : String) : Bool :=
  char_list_contains needle.toList haystack.toList

/-- The sensitive-key test of `_redact_sensitive_data` (logger.py lines
68-74): the lower-cased key is an exact member of `SENSITIVE_KEYS` or
contains one of `SENSITIVE_KEYWORDS` as a substring. -/
def is_sensitive_key (k : String) : Bool :=
  let key_lower := py_lower k
  SENSITIVE_KEYS.contains key_lower
    || SENSITIVE_KEYWORDS.any (fun w => py_str_contains w key_lower)

mutual
/-- A Python value as logged payloads nest them: scalars, lists and dicts
(dicts as key-value sequences in insertion order). -/
inductive PyData where
  | str (s : String)
  | int (n : Int)
  | bool (b : Bool)
  | pynone
  | list (l : PyList)
  | dict (d : PyDict)

/-- A Python list of `PyData` values. -/
inductive PyList where
  | nil
  | cons (v : PyData) (tl : PyList)

/-- A Python dict from string keys to `PyData` values. -/
inductive PyDict where
  | nil
  | cons (k : String) (v : PyData) (tl : PyDict)
end

mutual
/-- `_redact_sensitive_data` (logger.py lines 63-84): in a dict, a
sensitive key's value becomes the marker `"[REDACTED]"`, any other value is
recursed into; lists are mapped element-wise; scalars are returned
unchanged. -/
def redact_sensitive_data : PyData → PyData
  | .str s => .str s
  | .int n => .int n
  | .bool b => .bool b
  | .pynone => .pynone
  | .list l => .list (redact_list l)
  | .dict d => .dict (redact_dict d)

/-- Element-wise redaction of a list. -/
def redact_list : PyList → PyList
  | .nil => .nil
  | .cons v tl => .cons (redact_sensitive_data v) (redact_list tl)

/-- Entry-wise redaction of a dict. -/
def redact_dict : PyDict → PyDict
  | .nil => .nil
  | .cons k v tl =>
      if is_sensitive_key k then .cons k (.str "[REDACTED]") (redact_dict tl)
      else .cons k (redact_sensitive_data v) (redact_dict tl)
end

/-- Positional access into a dict (entry at index `i`). -/
def PyDict.entry : PyDict → Nat → Option (String × PyData)
  | .nil, _ => none
  | .cons k v _, 0 => some (k, v)
  | .cons _ _ tl, n + 1 => PyDict.entry tl n

mutual
/-- Every value sitting under a sensitive key, at any depth, is the
redaction marker. -/
def fully_redacted : PyData → Bool
  | .list l => fully_redacted_list l
  | .dict d => fully_redacted_dict d
  | _ => true

/-- List version of `fully_redacted`. -/
def fully_redacted_list : PyList → Bool
  | .nil => true
  | .cons v tl => fully_redacted v && fully_redacted_list tl

/-- Dict version of `fully_redacted`. -/
def fully_redacted_dict : PyDict → Bool
  | .nil => true
  | .cons k v tl =>
      (if is_sensitive_key k then
        (match v with
         | .str s => s == "[REDACTED]"
         | _ => false)
      else fully_redacted v) && fully_redacted_dict tl
end

mutual
/-- A value containing no sensitive key at any depth. -/
def clean_data : PyData → Bool
  | .list l => clean_list l
  | .dict d => clean_dict d
  | _ => true

/-- List version of `clean_data`. -/
def clean_list : PyList → Bool
  | .nil => true
  | .cons v tl => clean_data v && clean_list tl

/-- Dict version of `clean_data`. -/
def clean_dict : PyDict → Bool
  | .nil => true
  | .cons k v tl => !is_sensitive_key k && clean_data v && clean_dict tl
end

/-! ## Password hashing — src/src/core/security.py lines 27-34, bcrypt model -/

/-- Model of `bcrypt.gensalt()`: draws a fresh value from the process
randomness source; distinct draws yield distinct salts. -/
def bcrypt_gensalt (randomness : Nat) : Nat := randomness

/-- Model of an encoded bcrypt hash string: the encoding embeds the salt
and the digest of the password under that salt.  The digest is modelled as
an ideal collision-free keyed hash, i.e. an injective function of the
password; no code under src/ ever inspects the encoded string, it only
passes it back to `bcrypt.checkpw`. -/
structure BcryptHash where
  salt : Nat
  digest : String
  deriving DecidableEq, Repr

/-- Model of `bcrypt.hashpw(password, salt)`: encode the salt together with
the digest of the password under it (ideal digest: the identity injection
of the password). -/
def bcrypt_hashpw (password : String) (salt : Nat) : BcryptHash :=
  { salt := salt, digest := password }

/-- A runtime string offered to `bcrypt.checkpw` as the stored hash: either
it parses as a structurally valid bcrypt encoding or it does not. -/
inductive HashedInput where
  | wellFormed (h : BcryptHash)
  | malformed (s : String)
  deriving DecidableEq, Repr

/-- Failure modes relevant to password verification.  `valueError` is the
`ValueError` the bcrypt library raises from `checkpw` when the stored hash
is structurally invalid ("Invalid salt").  `credentialFormatError` is the
spec's §7 `CredentialFormatError` kind, included only so the spec's claim
can be stated; no class of that kind exists anywhere under src/. -/
inductive VerifyFailure where
  | valueError
  | credentialFormatError
  deriving DecidableEq, Repr

/-- Model of `bcrypt.checkpw(password, hashed)`: for a structurally valid
encoding, re-derive the digest with the embedded salt and compare (returns
a boolean, never raises, also for the empty password); for a structurally
invalid encoding, raise `ValueError`. -/
def bcrypt_checkpw (password : String) (hashed : HashedInput) :
    Except VerifyFailure Bool :=
  match hashed with
  | .wellFormed h => .ok (bcrypt_hashpw password h.salt == h)
  | .malformed _ => .error .valueError

/-- `hash_password` (core/security.py lines 27-28): hash with a freshly
drawn salt. -/
def hash_password (password : String) (randomness : Nat) : BcryptHash :=
  bcrypt_hashpw password (bcrypt_gensalt randomness)

/-- `verify_password` (core/security.py lines 31-34): a direct call to
`bcrypt.checkpw`, with no exception handling of its own. -/
def verify_password (plain_password : String) (hashed_password : HashedInput) :
    Except VerifyFailure Bool :=
  bcrypt_checkpw plain_password hashed_password

/-! ## Registration — src/src/routers/auth.py lines 30-74 -/

/-- The validated request body of `POST /auth/register`. -/
structure UserCreate where
  username : String
  email : String
  password : String
  deriving DecidableEq, Repr

/-- A SQLAlchemy session over the `users` table: the committed table and
the rows added in the current transaction but not yet committed. -/
structure DbSession where
  committed : List UserRow
  pending : List UserRow
  deriving DecidableEq, Repr

/-- `db.add(row)`: stage a row in the current transaction. -/
def DbSession.add (s : DbSession) (u : UserRow) : DbSession :=
  { s with pending := s.pending ++ [u] }

/-- The `users` table's unique constraints (models/__init__.py lines 19-20:
`username` and `email` are `unique=True` columns): a new row violates them
iff some existing row shares its username or email. -/
def violates_unique (table : List UserRow) (u : UserRow) : Bool :=
  table.any (fun r => r.username == u.username || r.email == u.email)

/-- `db.commit()`: apply the pending rows, or raise `IntegrityError`
(leaving the transaction to be rolled back) if any pending row violates a
unique constraint against the committed table or an earlier pending row. -/
def DbSession.commit (s : DbSession) : Except Unit DbSession :=
  if (s.pending.foldl
        (fun st u => ⟨st.1 || violates_unique st.2 u, st.2 ++ [u]⟩)
        ((false, s.committed) : Bool × List UserRow)).1 then
    .error ()
  else .ok { committed := s.committed ++ s.pending, pending := [] }

/-- `db.rollback()`: discard the pending rows of the transaction. -/
def DbSession.rollback (s : DbSession) : DbSession :=
  { s with pending := [] }

/-- `register` (routers/auth.py lines 33-74): build the user row with a
freshly hashed password, `db.add` it, try `db.commit()`; on
`IntegrityError` roll back and raise `UsernameAlreadyExistsException` if
the username is taken in the (rolled-back) table, else
`EmailAlreadyExistsException`.  Returns the outcome together with the
session the request leaves behind. -/
def register (user : UserCreate) (s : DbSession) (randomness : Nat)
    (next_id : Nat) : Except AuthException UserRow × DbSession :=
  let db_user : UserRow :=
    { id := next_id
      username := user.username
      email := user.email
      hashed_password_salt := (hash_password user.password randomness).salt
      hashed_password_digest := (hash_password user.password randomness).digest
      is_active := true }
  let s1 := s.add db_user
  match s1.commit with
  | .ok s2 => (.ok db_user, s2)
  | .error _ =>
      let s2 := s1.rollback
      if s2.committed.any (fun r => r.username == user.username) then
        (.error (AuthException.mk_init .usernameExists
          (some "Username already exists") none none), s2)
      else
        (.error (AuthException.mk_init .emailExists
          (some "Email already exists") none none), s2)

/-- The exception the `login` route raises for a wrong username or password
(routers/auth.py lines 96-99): an `UnauthorizedException` with an explicit
`WWW-Authenticate: Bearer` header passed at the raise site. -/
def login_invalid_credentials_exc : AuthException :=
  AuthException.mk_init .unauthorized
    (some "Incorrect username or password") none
    (some [("WWW-Authenticate", "Bearer")])

/-! ## Error response shaping — src/src/exceptions/exceptions.py lines 109-127 -/

/-- The request attributes the exception handler reads. -/
structure RequestInfo where
  path : String
  method : String
  deriving DecidableEq, Repr

/-- A rendered JSON response: status code, the JSON object body as an
ordered field list (field name, string value), and the HTTP headers. -/
structure JsonResponseModel where
  response_status : Nat
  content : List (String × String)
  resp_headers : List (String × String)
  deriving DecidableEq, Repr

/-- `app_exception_handler` (exceptions/exceptions.py lines 109-127):
renders an `AuthException` as a JSON object with exactly the fields
`detail`, `code` (read back from the `X-Error-Code` header the constructor
stored), `path`, `method` and `timestamp`
(`datetime.utcnow().isoformat(timespec="seconds") + "Z"`), with the
exception's status code and headers preserved on the response.
`utcnow_iso` stands for the clock reading `isoformat` returns. -/
def app_exception_handler (request : RequestInfo) (exc : AuthException)
    (utcnow_iso : String) : JsonResponseModel :=
  { response_status := exc.cls.status_code
    content :=
      [("detail", exc.detail),
       ("code", (lookup_header exc.headers "X-Error-Code").getD ""),
       ("path", request.path),
       ("method", request.method),
       ("timestamp", utcnow_iso ++ "Z")]
    resp_headers := exc.headers }

/-- An error the running service can produce: an `AuthException` (rendered
by `app_exception_handler`, which main.py registers for that class), or a
plain `fastapi.HTTPException` — raised by the item/user routes for missing
items and by `RequestSizeLimiter` for oversized bodies — for which no
handler of this application is registered. -/
inductive ServiceError where
  | auth (e : AuthException)
  | plainHTTP (code : Nat) (detail : String)
  deriving DecidableEq, Repr

/-- How an error raised while serving a request is rendered.  An
`AuthException` goes through `app_exception_handler`.  A plain
`HTTPException` is modelled generously with FastAPI's default rendering,
a JSON object with the single field `detail` and no extra headers (the 413
raised inside `RequestSizeLimiter.dispatch` in fact propagates above the
router's exception middleware and surfaces as a bare 500, even further
from the uniform shape). -/
def render_service_error (request : RequestInfo) (err : ServiceError)
    (utcnow_iso : String) : JsonResponseModel :=
  match err with
  | .auth e => app_exception_handler request e utcnow_iso
  | .plainHTTP code detail =>
      { response_status := code
        content := [("detail", detail)]
        resp_headers := [] }

/-- The 413 `HTTPException` raised by `RequestSizeLimiter.dispatch`
(middleware.py lines 33-39 and 45-51) with `max_size` bytes configured. -/
def size_limiter_413 (max_size : Nat) : ServiceError :=
  .plainHTTP 413 ("Request body too large. Max size: " ++ toString max_size ++ " bytes.")

/-! ## Theorems -/

/-- Claim C1 (counterexample): principal resolution does NOT map its four
terminal failures to four distinct wire-level errors.  With no bearer token
the code raises `NotFoundException("Missing token")` and with a verified
token whose subject has no user it raises
`NotFoundException("User not found")` — the same class, hence the same
status 404 and the same machine-readable code `NOT_FOUND`; the two
responses differ only in their human-readable detail. -/
theorem c1_counterexample :
    get_current_user none [] =
      .error (AuthException.mk_init .notFound (some "Missing token") none none) ∧
    get_current_user
      (some { well_formed := true, signature_valid := true, has_exp := true,
              exp_in_past := false, sub := some "alice" }) [] =
      .error (AuthException.mk_init .notFound (some "User not found") none none) ∧
    (AuthException.mk_init .notFound (some "Missing token") none none).cls.status_code =
      (AuthException.mk_init .notFound (some "User not found") none none).cls.status_code ∧
    lookup_header
        (AuthException.mk_init .notFound (some "Missing token") none none).headers
        "X-Error-Code" =
      lookup_header
        (AuthException.mk_init .notFound (some "User not found") none none).headers
        "X-Error-Code" := by
  decide

/-- Claim C1 (amended): principal resolution ends in one of four terminal
failures — `NotFoundException` (404, `NOT_FOUND`, "Missing token") when no
bearer token is present, `ValidationException` (422, `VALIDATION_ERROR`)
for a malformed/tampered/expired token, `NotFoundException` (404,
`NOT_FOUND`, "User not found") for a verified token whose subject has no
user, and `InactiveUserException` (403, `INACTIVE_USER`) for an existing
but inactive account — but the missing-credential and
principal-not-found failures share the same wire-level status and code,
so only three distinct (status, code) pairs exist among the four. -/
theorem c1_amended_wire_outcomes :
    (∀ db : List UserRow,
       get_current_user none db =
         .error (AuthException.mk_init .notFound (some "Missing token") none none)) ∧
    (∀ (t : TokenView) (db : List UserRow),
       (t.well_formed = false ∨ t.signature_valid = false ∨
        (t.has_exp = true ∧ t.exp_in_past = true)) →
       get_current_user (some t) db =
         .error (AuthException.mk_init .validation
           (some "Invalid or expired token") none none)) ∧
    (∀ (t : TokenView) (s : String) (db : List UserRow),
       t.well_formed = true → t.signature_valid = true →
       (t.has_exp && t.exp_in_past) = false → t.sub = some s →
       find_by_username db s = none →
       get_current_user (some t) db =
         .error (AuthException.mk_init .notFound (some "User not found") none none)) ∧
    (∀ (t : TokenView) (s : String) (db : List UserRow) (u : UserRow),
       t.well_formed = true → t.signature_valid = true →
       (t.has_exp && t.exp_in_past) = false → t.sub = some s →
       find_by_username db s = some u → u.is_active = false →
       get_current_user (some t) db =
         .error (AuthException.mk_init .inactiveUser (some "Inactive user") none none)) ∧
    (ExcClass.notFound.status_code = 404 ∧ ExcClass.notFound.code = .not_found ∧
     ExcClass.validation.status_code = 422 ∧
     ExcClass.validation.code = .validation_error ∧
     ExcClass.inactiveUser.status_code = 403 ∧
     ExcClass.inactiveUser.code = .inactive_user) := by
  refine ⟨fun db => rfl, ?_, ?_, ?_, by decide⟩
  · intro t db h
    have hd : ∃ e, jose_decode t = .error e := by
      rcases h with h | h | ⟨h1, h2⟩
      · exact ⟨.jwt_error, by simp [jose_decode, h]⟩
      · exact ⟨.jwt_error, by simp [jose_decode, h]⟩
      · unfold jose_decode
        by_cases hw : (!t.well_formed || !t.signature_valid) = true
        · exact ⟨.jwt_error, by simp [hw]⟩
        · exact ⟨.expired_signature, by simp [hw, h1, h2]⟩
    obtain ⟨e, he⟩ := hd
    simp [get_current_user, he]
  · intro t s db hw hs hexp hsub hfind
    simp [get_current_user, jose_decode, hw, hs, hexp, hsub, hfind]
  · intro t s db u hw hs hexp hsub hfind hact
    simp [get_current_user, jose_decode, hw, hs, hexp, hsub, hfind, hact]

/-- Claim C1 (witness): the amended theorem applied at concrete inputs —
a tampered token yields the 422 validation failure, an unknown subject the
404 not-found failure, and an inactive account the 403 failure. -/
theorem c1_amended_wire_outcomes_witness :
    get_current_user
        (some { well_formed := true, signature_valid := false, has_exp := true,
                exp_in_past := false, sub := some "alice" }) [] =
      .error (AuthException.mk_init .validation
        (some "Invalid or expired token") none none) ∧
    get_current_user
        (some { well_formed := true, signature_valid := true, has_exp := true,
                exp_in_past := false, sub := some "alice" }) [] =
      .error (AuthException.mk_init .notFound (some "User not found") none none) ∧
    get_current_user
        (some { well_formed := true, signature_valid := true, has_exp := true,
                exp_in_past := false, sub := some "bob" })
        [{ id := 1, username := "bob", email := "bob@example.com",
           hashed_password_salt := 0, hashed_password_digest := "pw",
           is_active := false }] =
      .error (AuthException.mk_init .inactiveUser (some "Inactive user") none none) := by
  refine ⟨?_, ?_, ?_⟩
  · exact c1_amended_wire_outcomes.2.1
      { well_formed := true, signature_valid := false, has_exp := true,
        exp_in_past := false, sub := some "alice" } []
      (Or.inr (Or.inl rfl))
  · exact c1_amended_wire_outcomes.2.2.1
      { well_formed := true, signature_valid := true, has_exp := true,
        exp_in_past := false, sub := some "alice" } "alice" []
      rfl rfl rfl rfl rfl
  · exact c1_amended_wire_outcomes.2.2.2.1
      { well_formed := true, signature_valid := true, has_exp := true,
        exp_in_past := false, sub := some "bob" } "bob"
      [{ id := 1, username := "bob", email := "bob@example.com",
         hashed_password_salt := 0, hashed_password_digest := "pw",
         is_active := false }]
      { id := 1, username := "bob", email := "bob@example.com",
        hashed_password_salt := 0, hashed_password_digest := "pw",
        is_active := false }
      rfl rfl rfl rfl (by decide) rfl

/-- Claim C2 (code bug): the code calls python-jose's `jwt.decode` with the
PyJWT-style option `\x7b"require": ["exp", "sub"]\x7d`, which python-jose
ignores (it only reads `require_exp`-style boolean option keys).  At the
failing input — a token signed with the server secret whose payload is
`\x7b"sub": "alice"\x7d` with NO `exp` claim — verification therefore does
not fail at all: the token is accepted and the user resolved.  A
valid-signature token missing `sub` instead escapes the `except JWTError`
clause as `NotFoundException` (404, `NOT_FOUND`), which is the generic
not-found wire error, not a distinct missing-claim token error. -/
theorem c2_code_bug_require_ignored :
    get_current_user
        (some { well_formed := true, signature_valid := true, has_exp := false,
                exp_in_past := false, sub := some "alice" })
        [{ id := 1, username := "alice", email := "alice@example.com",
           hashed_password_salt := 0, hashed_password_digest := "pw",
           is_active := true }] =
      .ok { id := 1, username := "alice", email := "alice@example.com",
            hashed_password_salt := 0, hashed_password_digest := "pw",
            is_active := true } ∧
    jose_decode { well_formed := true, signature_valid := true, has_exp := false,
                  exp_in_past := false, sub := some "alice" } = .ok (some "alice") ∧
    get_current_user
        (some { well_formed := true, signature_valid := true, has_exp := true,
                exp_in_past := false, sub := none }) [] =
      .error (AuthException.mk_init .notFound
        (some "Invalid token: missing \x27sub\x27 claim") none none) ∧
    (AuthException.mk_init .notFound
      (some "Invalid token: missing \x27sub\x27 claim") none none).cls.status_code = 404 := by
  decide

/-- Claim C3 (counterexample): not every error response produced by the
service has the five-field shape.  The 413 raised by
`RequestSizeLimiter.dispatch` for a POST whose declared Content-Length
(10485761) exceeds the 10 MiB ceiling is a plain `HTTPException`, not an
`AuthException`, so `app_exception_handler` never shapes it: its rendered
body has the single field `detail` and carries no `code`, `path`, `method`
or `timestamp`. -/
theorem c3_counterexample :
    RequestSizeLimiter_dispatch 10485760
        { method := "POST", content_length := some 10485761, chunks := [] } =
      .rejected_413 0 ∧
    (render_service_error { path := "/api/v1/items", method := "POST" }
        (size_limiter_413 10485760) "2026-10-12T00:00:00").content.map Prod.fst =
      ["detail"] ∧
    (["detail"] : List String) ≠ ["detail", "code", "path", "method", "timestamp"] := by
  refine ⟨by decide, rfl, by decide⟩

/-- Claim C3 (amended): every error rendered by `app_exception_handler`
(i.e. every `AuthException`-kind failure) is a single JSON object with
exactly the fields `detail`, `code`, `path`, `method`, `timestamp` in that
order, the timestamp being the UTC clock reading suffixed `Z`, and the
exception's status and headers are preserved on the response.  A 401
response carries the `WWW-Authenticate: Bearer` challenge only when the
raise site passes it explicitly — the login route does, but the
class-level header dict of `UnauthorizedException` is ignored by
`AuthException.__init__`, so a default-constructed 401 lacks the
challenge.  Plain `HTTPException`s (the middleware 413, the item/user 404s)
bypass this shape entirely. -/
theorem c3_amended_error_shape :
    (∀ (req : RequestInfo) (exc : AuthException) (ts : String),
       (app_exception_handler req exc ts).content.map Prod.fst =
         ["detail", "code", "path", "method", "timestamp"] ∧
       (app_exception_handler req exc ts).response_status = exc.cls.status_code ∧
       (app_exception_handler req exc ts).resp_headers = exc.headers ∧
       lookup_header (app_exception_handler req exc ts).content "timestamp" =
         some (ts ++ "Z")) ∧
    (login_invalid_credentials_exc.cls.status_code = 401 ∧
     ("WWW-Authenticate", "Bearer") ∈ login_invalid_credentials_exc.headers) ∧
    ((AuthException.mk_init .unauthorized none none none).cls.status_code = 401 ∧
     ("WWW-Authenticate", "Bearer") ∉
       (AuthException.mk_init .unauthorized none none none).headers) := by
  refine ⟨fun req exc ts => ⟨rfl, rfl, rfl, ?_⟩, by decide, by decide⟩
  simp [app_exception_handler, lookup_header]

/-- Claim C4 (code bug): the middleware stages do NOT execute in the order
of spec §4.5.  Starlette's `add_middleware` inserts at the front of the
stack, so the FIRST-added middleware is the innermost (last to run on the
request path); `add_middlewares` registers `RequestSizeLimiter` first with
the comment "reject huge bodies FIRST", which therefore makes it run LAST
of its group, after CORS, rate limiting, request-id, logging and security
headers; main.py moreover applies `add_middlewares` twice, duplicating
every stage.  The first stage a request meets is CORS, not body-size
admission. -/
theorem c4_code_bug_execution_order :
    execution_order =
      [.cors, .slowAPI, .requestID, .loggingMw, .securityHeaders, .requestSizeLimiter,
       .cors, .slowAPI, .requestID, .loggingMw, .securityHeaders, .requestSizeLimiter,
       .loggingMw] ∧
    execution_order.head? = some .cors ∧
    execution_order.head? ≠ some .requestSizeLimiter ∧
    execution_order ≠ spec_section_4_5_order := by
  decide

/-- Claim C7 (counterexample): no route of the application is
rate-limited.  The limiter is constructed without default limits and no
route declares a `@limiter.limit` quota, so for every registered route the
set of applicable limits is empty and in particular the 51st request in a
window from a fixed client is NOT rejected with 429 (it is processed
exactly like the 50th). -/
theorem c7_counterexample :
    (app_routes.all fun r => (applicable_limits r).isEmpty) = true ∧
    rate_limit_rejects "/api/v1/items" 50 = false ∧
    rate_limit_rejects "/api/v1/items" 51 = false := by
  decide

/-- Claim C7 (amended): the rate-limiting machinery is installed but
configured with no quota at all — the limiter has no default limits and no
route declares one — so no request, whatever its route and however many
requests preceded it in the window, is ever rejected as RateLimited. -/
theorem c7_amended_no_rate_limit (route : String) (count_in_window : Nat) :
    rate_limit_rejects route count_in_window = false := by
  simp [rate_limit_rejects, applicable_limits, route_limit, limiter_default_limits]

/-- Helper: the streaming loop rejects with 413 the moment the accumulated
length crosses the ceiling — after exactly the minimal crossing prefix of
chunks, whatever follows in the stream. -/
theorem read_stream_cross (max_size : Nat) :
    ∀ (pre : List (List Nat)) (acc : List Nat) (seen : Nat) (c : List Nat)
      (ext : List (List Nat)),
      acc.length + chunks_len pre ≤ max_size →
      acc.length + chunks_len pre + c.length > max_size →
      read_stream max_size acc seen (pre ++ c :: ext) =
        .rejected_413 (seen + pre.length + 1)
  | [], acc, seen, c, ext, _, hcross => by
      simp only [chunks_len, List.map_nil, List.sum_nil, Nat.add_zero] at hcross
      simp only [List.nil_append, read_stream]
      rw [if_pos (by simp only [List.length_append]; omega)]
      simp
  | p :: pre, acc, seen, c, ext, hfit, hcross => by
      simp only [chunks_len, List.map_cons, List.sum_cons] at hfit hcross
      have hrec := read_stream_cross max_size pre (acc ++ p) (seen + 1) c ext
        (by simp only [List.length_append, chunks_len]; omega)
        (by simp only [List.length_append, chunks_len]; omega)
      simp only [List.cons_append, read_stream]
      rw [if_neg (by simp only [List.length_append]; omega)]
      simp only [List.append_eq]
      rw [hrec]
      simp only [List.length_cons]
      congr 1
      omega

/-- Claim C5: for a state-changing request whose declared Content-Length
exceeds the ceiling, `RequestSizeLimiter.dispatch` rejects with 413 after
reading zero chunks, without invoking the route handler; for a request with
no declared length, the body is accumulated chunk by chunk and rejected
with 413 the moment the accumulated bytes cross the ceiling — after the
minimal crossing prefix, regardless of how much body remains unread — never
after buffering the full body, and again without invoking the handler. -/
theorem c5_admission_control (max_size : Nat) (method : String)
    (hm : (["POST", "PUT", "PATCH"].contains method) = true) :
    (∀ (n : Nat) (chunks : List (List Nat)), n > max_size →
       RequestSizeLimiter_dispatch max_size
           { method := method, content_length := some n, chunks := chunks } =
         .rejected_413 0 ∧
       (RequestSizeLimiter_dispatch max_size
           { method := method, content_length := some n, chunks := chunks }).handler_invoked
         = false) ∧
    (∀ (pre : List (List Nat)) (c : List Nat) (ext : List (List Nat)),
       chunks_len pre ≤ max_size → chunks_len pre + c.length > max_size →
       RequestSizeLimiter_dispatch max_size
           { method := method, content_length := none, chunks := pre ++ c :: ext } =
         .rejected_413 (pre.length + 1) ∧
       (RequestSizeLimiter_dispatch max_size
           { method := method, content_length := none,
             chunks := pre ++ c :: ext }).handler_invoked = false) := by
  constructor
  · intro n chunks hn
    have : RequestSizeLimiter_dispatch max_size
        { method := method, content_length := some n, chunks := chunks } =
        .rejected_413 0 := by
      simp only [RequestSizeLimiter_dispatch, hm]
      rw [if_neg (by simp)]
      rw [if_pos hn]
    exact ⟨this, by rw [this]; rfl⟩
  · intro pre c ext hfit hcross
    have : RequestSizeLimiter_dispatch max_size
        { method := method, content_length := none, chunks := pre ++ c :: ext } =
        .rejected_413 (pre.length + 1) := by
      simp only [RequestSizeLimiter_dispatch, hm]
      rw [if_neg (by simp)]
      have := read_stream_cross max_size pre [] 0 c ext (by simpa) (by simpa)
      simpa using this
    exact ⟨this, by rw [this]; rfl⟩

/-- Claim C5 (witness): the theorem at concrete inputs — ceiling 3 bytes;
a POST declaring Content-Length 4 is rejected before any read; a chunked
POST whose chunks are [1,2], [9,9], [7] crosses the ceiling on the second
chunk and is rejected after exactly two of its three chunks. -/
theorem c5_admission_control_witness :
    ((["POST", "PUT", "PATCH"].contains "POST") = true) ∧
    (4 > 3) ∧
    ((chunks_len [[1, 2]] ≤ 3) ∧ (chunks_len [[1, 2]] + [9, 9].length > 3)) ∧
    RequestSizeLimiter_dispatch 3
        { method := "POST", content_length := some 4, chunks := [[5, 5]] } =
      .rejected_413 0 ∧
    RequestSizeLimiter_dispatch 3
        { method := "POST", content_length := none,
          chunks := [[1, 2], [9, 9], [7]] } = .rejected_413 2 := by
  refine ⟨by decide, by decide, ⟨by decide, by decide⟩, ?_, ?_⟩
  · exact ((c5_admission_control 3 "POST" (by decide)).1 4 [[5, 5]] (by decide)).1
  · exact ((c5_admission_control 3 "POST" (by decide)).2 [[1, 2]] [9, 9] [[7]]
      (by decide) (by decide)).1

mutual
/-- Helper: after redaction, every value sitting under a sensitive key at
any depth is the marker. -/
theorem fully_redacted_redact : ∀ v : PyData,
    fully_redacted (redact_sensitive_data v) = true
  | .str _ => rfl
  | .int _ => rfl
  | .bool _ => rfl
  | .pynone => rfl
  | .list l => fully_redacted_list_redact l
  | .dict d => fully_redacted_dict_redact d

/-- List version of `fully_redacted_redact`. -/
theorem fully_redacted_list_redact : ∀ l : PyList,
    fully_redacted_list (redact_list l) = true
  | .nil => rfl
  | .cons v tl => by
      simp only [redact_list, fully_redacted_list, Bool.and_eq_true]
      exact ⟨fully_redacted_redact v, fully_redacted_list_redact tl⟩

/-- Dict version of `fully_redacted_redact`. -/
theorem fully_redacted_dict_redact : ∀ d : PyDict,
    fully_redacted_dict (redact_dict d) = true
  | .nil => rfl
  | .cons k v tl => by
      by_cases h : is_sensitive_key k = true
      · simp only [redact_dict, if_pos h, fully_redacted_dict, if_pos h,
          Bool.and_eq_true]
        exact ⟨rfl, fully_redacted_dict_redact tl⟩
      · simp only [redact_dict, if_neg h, fully_redacted_dict, if_neg h,
          Bool.and_eq_true]
        exact ⟨fully_redacted_redact v, fully_redacted_dict_redact tl⟩
end

mutual
/-- Helper: a value containing no sensitive key anywhere is returned
unchanged by redaction. -/
theorem redact_clean : ∀ v : PyData,
    clean_data v = true → redact_sensitive_data v = v
  | .str _, _ => rfl
  | .int _, _ => rfl
  | .bool _, _ => rfl
  | .pynone, _ => rfl
  | .list l, h => by
      simp only [redact_sensitive_data]
      rw [redact_clean_list l h]
  | .dict d, h => by
      simp only [redact_sensitive_data]
      rw [redact_clean_dict d h]

/-- List version of `redact_clean`. -/
theorem redact_clean_list : ∀ l : PyList,
    clean_list l = true → redact_list l = l
  | .nil, _ => rfl
  | .cons v tl, h => by
      simp only [clean_list, Bool.and_eq_true] at h
      simp only [redact_list]
      rw [redact_clean v h.1, redact_clean_list tl h.2]

/-- Dict version of `redact_clean`. -/
theorem redact_clean_dict : ∀ d : PyDict,
    clean_dict d = true → redact_dict d = d
  | .nil, _ => rfl
  | .cons k v tl, h => by
      simp only [clean_dict, Bool.and_eq_true] at h
      obtain ⟨⟨hk, hv⟩, htl⟩ := h
      simp only [redact_dict]
      rw [if_neg (by simp_all)]
      rw [redact_clean v hv, redact_clean_dict tl htl]
end

/-- Helper: entry-wise characterisation of dict redaction — the entry at
any index keeps its key; its value becomes the marker iff the key is
sensitive, and is otherwise recursed into. -/
theorem redact_dict_entry : ∀ (d : PyDict) (i : Nat),
    (redact_dict d).entry i = (d.entry i).map (fun kv =>
      if is_sensitive_key kv.1 then (kv.1, PyData.str "[REDACTED]")
      else (kv.1, redact_sensitive_data kv.2))
  | .nil, _ => rfl
  | .cons k v tl, 0 => by
      by_cases h : is_sensitive_key k = true
      · simp [redact_dict, PyDict.entry, h]
      · simp [redact_dict, PyDict.entry, h]
  | .cons k v tl, i + 1 => by
      by_cases h : is_sensitive_key k = true
      · simp only [redact_dict, if_pos h, PyDict.entry]
        exact redact_dict_entry tl i
      · simp only [redact_dict, if_neg h, PyDict.entry]
        exact redact_dict_entry tl i

/-- Claim C6: redaction replaces the value of every key matching the
sensitive-name heuristic by the fixed marker `"[REDACTED]"`, recursively at
every nesting depth (first conjunct), while every non-sensitive entry keeps
its key and has its value merely recursed into (second conjunct), so a
value containing no sensitive key anywhere is logged entirely unchanged
(third conjunct); the keys `password`, `Authorization` and `api_key` match
the heuristic case-insensitively, and ordinary keys such as `username` and
`email` do not. -/
theorem c6_redaction (v : PyData) (d : PyDict) (i : Nat) :
    fully_redacted (redact_sensitive_data v) = true ∧
    (redact_dict d).entry i = ((d.entry i).map (fun kv =>
      if is_sensitive_key kv.1 then (kv.1, PyData.str "[REDACTED]")
      else (kv.1, redact_sensitive_data kv.2))) ∧
    (clean_data v = true → redact_sensitive_data v = v) ∧
    is_sensitive_key "password" = true ∧
    is_sensitive_key "Authorization" = true ∧
    is_sensitive_key "api_key" = true ∧
    is_sensitive_key "username" = false ∧
    is_sensitive_key "email" = false :=
  ⟨fully_redacted_redact v, redact_dict_entry d i, redact_clean v,
   by decide, by decide, by decide, by decide, by decide⟩

/-- Claim C6 (witness): the theorem at the concrete payload
`\x7b"password": "hunter2", "username": "bob"\x7d` — the sensitive entry is
replaced by the marker, the sibling entry is untouched, and the clean value
`"bob"` round-trips unchanged through redaction. -/
theorem c6_redaction_witness :
    fully_redacted (redact_sensitive_data
      (.dict (.cons "password" (.str "hunter2")
        (.cons "username" (.str "bob") .nil)))) = true ∧
    (redact_dict (.cons "password" (.str "hunter2")
        (.cons "username" (.str "bob") .nil))).entry 0 =
      some ("password", PyData.str "[REDACTED]") ∧
    (redact_dict (.cons "password" (.str "hunter2")
        (.cons "username" (.str "bob") .nil))).entry 1 =
      some ("username", PyData.str "bob") ∧
    clean_data (.str "bob") = true ∧
    redact_sensitive_data (.str "bob") = .str "bob" := by
  have h0 := c6_redaction
    (.dict (.cons "password" (.str "hunter2") (.cons "username" (.str "bob") .nil)))
    (.cons "password" (.str "hunter2") (.cons "username" (.str "bob") .nil)) 0
  have h1 := c6_redaction (.str "bob")
    (.cons "password" (.str "hunter2") (.cons "username" (.str "bob") .nil)) 1
  refine ⟨h0.1, ?_, ?_, by decide, h1.2.2.1 (by decide)⟩
  · rw [h0.2.1]
    simp only [PyDict.entry, Option.map]
    rw [if_pos (by decide)]
  · rw [h1.2.1]
    simp only [PyDict.entry, Option.map]
    rw [if_neg (by decide)]
    rfl

/-- Claim C8: for every password p, `verify_password(p, hash_password(p))`
returns true, and two calls of `hash_password` on the same p — which draw
distinct fresh salts from the randomness source — produce two different
encoded hashes. -/
theorem c8_hash_verify_roundtrip (p : String) (r r1 r2 : Nat) (h : r1 ≠ r2) :
    verify_password p (.wellFormed (hash_password p r)) = .ok true ∧
    hash_password p r1 ≠ hash_password p r2 := by
  constructor
  · simp [verify_password, bcrypt_checkpw, hash_password, bcrypt_hashpw,
      bcrypt_gensalt]
  · intro heq
    exact h (congrArg BcryptHash.salt heq)

/-- Claim C8 (witness): the theorem at the concrete password "secret123"
with salt draws 1 and 2. -/
theorem c8_hash_verify_roundtrip_witness :
    (1 ≠ 2) ∧
    verify_password "secret123" (.wellFormed (hash_password "secret123" 1)) = .ok true ∧
    hash_password "secret123" 1 ≠ hash_password "secret123" 2 := by
  have h := c8_hash_verify_roundtrip "secret123" 1 1 2 (by decide)
  exact ⟨by decide, h.1, h.2⟩

/-- Claim C9 (counterexample): for a structurally invalid stored hash,
`verify_password` neither returns false nor fails with a
`CredentialFormatError`-kind failure: it propagates the bcrypt library's
raw `ValueError` unmapped (no `CredentialFormatError`-kind class exists
anywhere under src/, and `verify_password` wraps `bcrypt.checkpw` in no
exception handling at all). -/
theorem c9_counterexample :
    verify_password "secret123" (.malformed "not-a-bcrypt-hash") =
      .error .valueError ∧
    (Except.error .valueError : Except VerifyFailure Bool) ≠
      .error .credentialFormatError ∧
    verify_password "secret123" (.malformed "not-a-bcrypt-hash") ≠ .ok false := by
  decide

/-- Claim C9 (amended): for a structurally valid stored hash,
`verify_password` always returns a boolean and never raises — in
particular it returns false (rather than throwing) for the empty password
against the hash of a non-empty password; for a structurally invalid hash
it raises the bcrypt library's `ValueError`, which is not mapped to any
`CredentialFormatError`-kind taxonomy failure; it raises nothing else. -/
theorem c9_amended_verify_failure_modes (p s : String) (h : BcryptHash)
    (hne : h.digest ≠ "") :
    verify_password p (.wellFormed h) = .ok (bcrypt_hashpw p h.salt == h) ∧
    verify_password "" (.wellFormed h) = .ok false ∧
    verify_password p (.malformed s) = .error .valueError ∧
    VerifyFailure.valueError ≠ VerifyFailure.credentialFormatError := by
  refine ⟨rfl, ?_, rfl, by decide⟩
  simp only [verify_password, bcrypt_checkpw, bcrypt_hashpw]
  have : ({ salt := h.salt, digest := "" } : BcryptHash) ≠ h := by
    intro heq
    exact hne (congrArg BcryptHash.digest heq).symm
  simp [this]

/-- Claim C9 (witness): the amended theorem at password "x", malformed
hash "garbage" and the stored hash of "secret123" under salt 0. -/
theorem c9_amended_verify_failure_modes_witness :
    (({ salt := 0, digest := "secret123" } : BcryptHash).digest ≠ "") ∧
    verify_password "x" (.wellFormed { salt := 0, digest := "secret123" }) =
      .ok false ∧
    verify_password "" (.wellFormed { salt := 0, digest := "secret123" }) =
      .ok false ∧
    verify_password "x" (.malformed "garbage") = .error .valueError := by
  have h := c9_amended_verify_failure_modes "x" "garbage"
    { salt := 0, digest := "secret123" } (by decide)
  exact ⟨by decide, by rw [h.1]; decide, h.2.1, h.2.2.1⟩

/-- Claim C10: when registration hits a storage uniqueness violation — some
committed row already holds the requested username or email — the commit
raises `IntegrityError`, the transaction is rolled back before the conflict
error is raised, and the request leaves the session exactly as it found it:
the user table is unchanged and no pending row survives; the outcome is a
Conflict-kind (409, `USER_EXISTS`) error. -/
theorem c10_register_rollback (user : UserCreate) (s : DbSession)
    (randomness next_id : Nat) (hclean : s.pending = [])
    (hdup : (s.committed.any fun r =>
      r.username == user.username || r.email == user.email) = true) :
    (register user s randomness next_id).2 = s ∧
    ∃ e : AuthException,
      (register user s randomness next_id).1 = .error e ∧
      e.cls.status_code = 409 ∧ e.cls.code = .user_exists := by
  obtain ⟨committed, pending⟩ := s
  subst hclean
  have hcommit : (DbSession.add ⟨committed, []⟩
      { id := next_id, username := user.username, email := user.email,
        hashed_password_salt := (hash_password user.password randomness).salt,
        hashed_password_digest := (hash_password user.password randomness).digest,
        is_active := true }).commit = .error () := by
    simp only [DbSession.add, DbSession.commit, List.nil_append,
      List.foldl_cons, List.foldl_nil, Bool.false_or]
    rw [if_pos]
    simpa [violates_unique] using hdup
  simp only [DbSession.add, List.nil_append] at hcommit
  by_cases hname : (committed.any fun r => r.username == user.username) = true
  · refine ⟨?_, AuthException.mk_init .usernameExists
      (some "Username already exists") none none, ?_, rfl, rfl⟩
    · simp [register, hcommit, DbSession.rollback, DbSession.add, hname]
    · simp [register, hcommit, DbSession.rollback, DbSession.add, hname]
  · refine ⟨?_, AuthException.mk_init .emailExists
      (some "Email already exists") none none, ?_, rfl, rfl⟩
    · simp [register, hcommit, DbSession.rollback, DbSession.add, hname]
    · simp [register, hcommit, DbSession.rollback, DbSession.add, hname]

/-- Claim C10 (witness): the theorem at a concrete duplicate registration —
the table already holds a user with email "alice@example.com"; registering
"alice2" with the same email fails with a 409 `USER_EXISTS` error and
leaves the table exactly as it was. -/
theorem c10_register_rollback_witness :
    (({ committed := [{ id := 1, username := "alice",
                        email := "alice@example.com",
                        hashed_password_salt := 0,
                        hashed_password_digest := "pw",
                        is_active := true }],
        pending := [] } : DbSession).pending = []) ∧
    (register { username := "alice2", email := "alice@example.com",
                password := "pw2" }
        { committed := [{ id := 1, username := "alice",
                          email := "alice@example.com",
                          hashed_password_salt := 0,
                          hashed_password_digest := "pw",
                          is_active := true }],
          pending := [] } 7 2).2 =
      { committed := [{ id := 1, username := "alice",
                        email := "alice@example.com",
                        hashed_password_salt := 0,
                        hashed_password_digest := "pw",
                        is_active := true }],
        pending := [] } ∧
    ∃ e : AuthException,
      (register { username := "alice2", email := "alice@example.com",
                  password := "pw2" }
          { committed := [{ id := 1, username := "alice",
                            email := "alice@example.com",
                            hashed_password_salt := 0,
                            hashed_password_digest := "pw",
                            is_active := true }],
            pending := [] } 7 2).1 = .error e ∧
      e.cls.status_code = 409 ∧ e.cls.code = .user_exists := by
  have h := c10_register_rollback
    { username := "alice2", email := "alice@example.com", password := "pw2" }
    { committed := [{ id := 1, username := "alice", email := "alice@example.com",
                      hashed_password_salt := 0, hashed_password_digest := "pw",
                      is_active := true }],
      pending := [] } 7 2 rfl (by decide)
  exact ⟨rfl, h.1, h.2⟩

end ProductsApi
